import Mathlib

/-!
Verification of the nc-posts repository: the counter-based fan-in loop from the
concurrency article (node-patterns-concurrency), the fail-fast coordinator the
specification designs around it, and the getCustomers function
(file-read-with-okay.js and its manual-error-check variant).
-/

/- ## Definitions: the fan-in counter loop

Source (node-patterns-concurrency article, final snippet):

  var j = 0
  var responses = \x7b\x7d
  for (var i = 1; i<=10; i++) \x7b
    makeRequest(i, function(response) \x7b
      j++
      console.log(response)
      responses[i] = (response)
      if (j == 10) processResponses(responses)
    \x7d)
  \x7d

The loop is generalised over N (the snippet hardcodes 10). Because the loop
variable i is declared with var, every callback closes over the same binding;
makeRequest is asynchronous, so each callback runs after the loop has finished,
when i equals N + 1. The callback body therefore writes responses[N + 1] on
every completion. A run is a fold of the callback body over the list of
completion reports, each report carrying the task index it came from (the body
ignores it) and the response value. -/

/-- JavaScript object assignment obj[k] = v on an association list: overwrite
the entry for k when present, append it otherwise. -/
def objSet {V : Type} : List (Nat × V) → Nat → V → List (Nat × V)
  | [], k, v => [ (k, v) ]
  | (k2, v2) :: rest, k, v =>
      if k2 = k then (k, v) :: rest else (k2, v2) :: objSet rest k v

/-- State shared by the callbacks of the loop: the counter j, the responses
object, and the list of processResponses invocations so far (each recorded with
the responses object it was handed). -/
structure FanState (V : Type) where
  j : Nat
  responses : List (Nat × V)
  calls : List (List (Nat × V))

/-- The body of the callback passed to makeRequest, for the loop generalised to
N tasks: increment j, assign responses[i] where i is the shared loop variable
(equal to N + 1 once the callbacks run), and call processResponses(responses)
when j reaches N. -/
def makeRequestCallback {V : Type} (N : Nat) (s : FanState V) (response : V) :
    FanState V :=
  { j := s.j + 1,
    responses := objSet s.responses (N + 1) response,
    calls :=
      if s.j + 1 = N then s.calls ++ [ objSet s.responses (N + 1) response ]
      else s.calls }

/-- Run the callbacks over a list of completion reports, from a given state.
Each report is a pair of the reporting task index and its response value; the
callback body uses only the response value. -/
def runFanFrom {V : Type} (N : Nat) : FanState V → List (Nat × V) → FanState V
  | s, [] => s
  | s, e :: rest => runFanFrom N (makeRequestCallback N s e.2) rest

/-- Run the loop pattern with N tasks from the initial state (j = 0, empty
responses object, no processResponses call yet) over a list of completion
reports. -/
def runFan {V : Type} (N : Nat) (events : List (Nat × V)) : FanState V :=
  runFanFrom N { j := 0, responses := [], calls := [] } events

/- ## Definitions: the loop with a completion handler that may throw

The snippet invokes processResponses(responses) with no try/catch anywhere on
the path; an exception raised by the handler escapes the callback to the top
level of the event loop (the article itself demonstrates that such an exception
kills the program), so later callbacks never run. The handler is modelled as a
function returning Except: an error value is a thrown exception. -/

/-- One step of the loop body with an explicit, possibly throwing handler. The
whole run aborts with the exception raised by the handler, unchanged, because
the call site is unguarded. -/
def runFanExcFrom {V E : Type} (N : Nat)
    (handler : List (Nat × V) → Except E Unit) :
    FanState V → List (Nat × V) → Except E (FanState V)
  | s, [] => Except.ok s
  | s, e :: rest =>
      if s.j + 1 = N then
        match handler (objSet s.responses (N + 1) e.2) with
        | Except.error ex => Except.error ex
        | Except.ok _ =>
            runFanExcFrom N handler
              { j := s.j + 1,
                responses := objSet s.responses (N + 1) e.2,
                calls := s.calls ++ [ objSet s.responses (N + 1) e.2 ] } rest
      else
        runFanExcFrom N handler
          { j := s.j + 1,
            responses := objSet s.responses (N + 1) e.2,
            calls := s.calls } rest

/-- Run the loop with a possibly throwing completion handler. -/
def runFanExc {V E : Type} (N : Nat)
    (handler : List (Nat × V) → Except E Unit)
    (events : List (Nat × V)) : Except E (FanState V) :=
  runFanExcFrom N handler { j := 0, responses := [], calls := [] } events

/- ## Definitions: the fail-fast coordinator designed by the specification

The counter-loop snippet has no error branch, no duplicate detection and no
zero-task handling, so fail-fast behaviour cannot be read off the source; the
coordinator below follows the wording of the specification instead. -/

/-- Outcome a task reports when it completes: a success value or a failure
reason. -/
inductive Outcome (E V : Type) where
  | success (v : V)
  | failure (e : E)

/-- Whether an outcome is a success. -/
def Outcome.isSuccess {E V : Type} : Outcome E V → Bool
  | success _ => true
  | failure _ => false

/-- An invocation of the completion handler: either the full ResultSet on the
success path, or the key and reason of the first failure (with no ResultSet)
on the fail-fast path. -/
inductive CoordCall (E V : Type) where
  | onSuccess (results : List (Nat × V))
  | onFailure (key : Nat) (e : E)

/-- Modelled from the spec: CompletionState and ResultSet of the fan-in
coordinator, missing from the source (the counter-loop snippet has neither a
result slot per task key nor a fired flag). Holds the dispatched count n, the
result slot per task key, the keys that have already reported (for duplicate
detection), and the handler invocations so far (the at-most-once contract makes
this list have length at most one). -/
structure Coord (E V : Type) where
  n : Nat
  results : List (Nat × V)
  completedKeys : List Nat
  fired : List (CoordCall E V)

/-- Modelled from the spec: one completion report received by the coordinator
in fail-fast mode. After the handler has fired, every report is discarded; a
duplicate report from a key that already reported is ignored and not counted;
a fresh success writes the result slot of that task and fires the handler with the
full ResultSet exactly when the completed count reaches the dispatched count;
a fresh failure fires the handler at once with that failure and no ResultSet. -/
def coordReport {E V : Type} (s : Coord E V) (k : Nat) (o : Outcome E V) :
    Coord E V :=
  if s.fired.isEmpty then
    if k ∈ s.completedKeys then s
    else
      match o with
      | Outcome.success v =>
          { n := s.n,
            results := objSet s.results k v,
            completedKeys := s.completedKeys ++ [ k ],
            fired :=
              if s.completedKeys.length + 1 = s.n then
                [ CoordCall.onSuccess (objSet s.results k v) ]
              else [] }
      | Outcome.failure e =>
          { n := s.n,
            results := s.results,
            completedKeys := s.completedKeys ++ [ k ],
            fired := [ CoordCall.onFailure k e ] }
  else s

/-- Modelled from the spec: the coordinator state right after dispatch. With
zero tasks the handler fires immediately with an empty ResultSet. -/
def coordInit {E V : Type} (n : Nat) : Coord E V :=
  { n := n,
    results := [],
    completedKeys := [],
    fired := if n = 0 then [ CoordCall.onSuccess [] ] else [] }

/-- Feed a list of completion reports to the coordinator from a given state. -/
def coordRunFrom {E V : Type} : Coord E V → List (Nat × Outcome E V) → Coord E V
  | s, [] => s
  | s, e :: rest => coordRunFrom (coordReport s e.1 e.2) rest

/-- Dispatch n tasks and feed the coordinator a list of completion reports. -/
def coordRun {E V : Type} (n : Nat) (events : List (Nat × Outcome E V)) :
    Coord E V :=
  coordRunFrom (coordInit n) events

/- ## Definitions: getCustomers

Source (file-read-with-okay.js lines 5 to 25; the manual-error-check variant in
unnamed/part_000 lines 4 to 26 behaves identically on every path below):

  function getCustomers (callback)\x7b
    fs.stat(inputFile, function(error, stats)\x7b
      if (stats.isFile()) \x7b
        fs.readFile(inputFile, utf8, okay(callback, function(customersCSV)\x7b
          customers = customersCSV.split(newline).map(function(customerLine)\x7b
            customerArray = customerLine.split(comma)
            return \x7b id: customerArray[0], first_name: customerArray[1] \x7d\x7d)
          console.log(customers);
          customersJSON = JSON.stringify(customers, 0, 4)
          fs.writeFile(customers.json, customersJSON, utf-8,
            okay(callback, function()\x7b
              return callback(null, customersJSON)
            \x7d))
        \x7d))
      \x7d else \x7b
        console.error(The input CSV file is not found)
      \x7d
    \x7d)
  \x7d

okay(callback, fn) calls callback(error) when the operation reports an error
and fn(result) otherwise, exactly like the manual if (error) return
callback(error) in the variant. JSON.stringify(customers, 0, 4) ignores the
replacer 0 and pretty-prints with 4-space indentation, omitting properties
whose value is undefined. -/

/-- One parsed customer line: customerArray[0] always exists (split returns at
least one field), customerArray[1] is undefined when the line has no comma. -/
structure Customer where
  id : String
  first_name : Option String
deriving DecidableEq

/-- The function mapped over the lines: split the line on commas and keep the
first two fields. -/
def parseCustomerLine (customerLine : String) : Customer :=
  { id := (customerLine.splitOn ",").headD "",
    first_name := (customerLine.splitOn ",")[1]? }

/-- customersCSV.split of the source: split the file content on newlines and
parse each line. -/
def parseCustomers (customersCSV : String) : List Customer :=
  (customersCSV.splitOn "\n").map parseCustomerLine

/-- Hexadecimal digit for JSON control-character escapes. -/
def hexDigit (n : Nat) : Char :=
  if n < 10 then Char.ofNat (48 + n) else Char.ofNat (87 + n)

/-- JSON escaping of one character, as JSON.stringify performs it. -/
def jsonEscapeChar (c : Char) : String :=
  if c = Char.ofNat 34 then "\\\""
  else if c = Char.ofNat 92 then "\\\\"
  else if c = Char.ofNat 10 then "\\n"
  else if c = Char.ofNat 13 then "\\r"
  else if c = Char.ofNat 9 then "\\t"
  else if c = Char.ofNat 8 then "\\b"
  else if c = Char.ofNat 12 then "\\f"
  else if c.toNat < 32 then
    "\\u00" ++ String.mk [ hexDigit (c.toNat / 16), hexDigit (c.toNat % 16) ]
  else String.mk [ c ]

/-- A JSON string literal for s. -/
def jsonQuote (s : String) : String :=
  "\"" ++ String.join (s.toList.map jsonEscapeChar) ++ "\""

/-- JSON.stringify of one customer object at nesting depth one, with 4-space
indentation; the first_name property is omitted when its value is undefined. -/
def stringifyCustomer (c : Customer) : String :=
  let props :=
    match c.first_name with
    | some fn =>
        [ "        \"id\": " ++ jsonQuote c.id,
          "        \"first_name\": " ++ jsonQuote fn ]
    | none => [ "        \"id\": " ++ jsonQuote c.id ]
  "\x7b\n" ++ String.intercalate ",\n" props ++ "\n    \x7d"

/-- JSON.stringify(customers, 0, 4) on the array of parsed customers. -/
def stringifyCustomers (customers : List Customer) : String :=
  match customers with
  | [] => "[]"
  | _ =>
      "[\n" ++
        String.intercalate ",\n"
          (customers.map (fun c => "    " ++ stringifyCustomer c)) ++
      "\n]"

/-- Result reported by fs.stat to its callback: an error (in which case the
stats argument is undefined) or stats with the isFile answer. -/
inductive StatOutcome where
  | statError (message : String)
  | statOk (isFile : Bool)

/-- Result reported by fs.readFile to its callback. -/
inductive ReadOutcome where
  | readError (message : String)
  | readOk (customersCSV : String)

/-- Result reported by fs.writeFile to its callback. -/
inductive WriteOutcome where
  | writeError (message : String)
  | writeOk

/-- Observable outcome of one getCustomers invocation: the uncaught exception
if one was thrown, the invocations of the supplied callback as (error, data)
argument pairs, and the console.error output. -/
structure RunResult where
  thrown : Option String
  callbackCalls : List (Option String × Option String)
  consoleErrors : List String
deriving DecidableEq

/-- getCustomers, as a function of the outcomes the three filesystem
operations report. When fs.stat reports an error its stats argument is
undefined, so stats.isFile() throws a TypeError that nothing catches; when
stats says the path is not a regular file, the else branch only logs to
console.error and the callback is never invoked; a read or write error is
passed to the callback by okay (or by the manual if (error) return
callback(error)); on full success the callback receives null and the
serialized JSON. -/
def getCustomers : StatOutcome → ReadOutcome → WriteOutcome → RunResult
  | StatOutcome.statError _, _, _ =>
      { thrown := some "TypeError: Cannot read property isFile of undefined",
        callbackCalls := [],
        consoleErrors := [] }
  | StatOutcome.statOk false, _, _ =>
      { thrown := none,
        callbackCalls := [],
        consoleErrors := [ "The input CSV file is not found" ] }
  | StatOutcome.statOk true, ReadOutcome.readError message, _ =>
      { thrown := none,
        callbackCalls := [ (some message, none) ],
        consoleErrors := [] }
  | StatOutcome.statOk true, ReadOutcome.readOk _, WriteOutcome.writeError message =>
      { thrown := none,
        callbackCalls := [ (some message, none) ],
        consoleErrors := [] }
  | StatOutcome.statOk true, ReadOutcome.readOk customersCSV, WriteOutcome.writeOk =>
      { thrown := none,
        callbackCalls :=
          [ (none, some (stringifyCustomers (parseCustomers customersCSV))) ],
        consoleErrors := [] }

/- ## Lemmas about the fan-in counter loop -/

/-- Each callback increments j once, so after any list of reports j equals the
number of reports received. -/
theorem runFanFrom_j {V : Type} (N : Nat) (events : List (Nat × V)) :
    ∀ s : FanState V, (runFanFrom N s events).j = s.j + events.length := by
  induction events with
  | nil => intro s; rfl
  | cons e rest ih =>
      intro s
      have hstep : runFanFrom N s (e :: rest)
          = runFanFrom N (makeRequestCallback N s e.2) rest := rfl
      rw [hstep, ih]
      simp [makeRequestCallback]
      omega

/-- Once j has reached N, the guard j = N can never hold again, so no further
report adds a processResponses call. -/
theorem runFanFrom_calls_of_ge {V : Type} (N : Nat) (events : List (Nat × V)) :
    ∀ s : FanState V, N ≤ s.j → (runFanFrom N s events).calls = s.calls := by
  induction events with
  | nil => intro s _; rfl
  | cons e rest ih =>
      intro s h
      have hne : s.j + 1 ≠ N := by omega
      have h2 : N ≤ (makeRequestCallback N s e.2).j := by
        show N ≤ s.j + 1
        omega
      have hstep : runFanFrom N s (e :: rest)
          = runFanFrom N (makeRequestCallback N s e.2) rest := rfl
      rw [hstep, ih _ h2]
      simp [makeRequestCallback, hne]

/-- From a state with j below N, the run fires processResponses exactly once
when enough reports arrive to lift j to N, and not at all otherwise. -/
theorem runFanFrom_calls_length {V : Type} (N : Nat) (events : List (Nat × V)) :
    ∀ s : FanState V, s.j < N →
      (runFanFrom N s events).calls.length =
        s.calls.length + (if N ≤ s.j + events.length then 1 else 0) := by
  induction events with
  | nil =>
      intro s h
      have hn : ¬ N ≤ s.j + ([] : List (Nat × V)).length := by simp; omega
      simp [runFanFrom, hn]
      omega
  | cons e rest ih =>
      intro s h
      have hstep : runFanFrom N s (e :: rest)
          = runFanFrom N (makeRequestCallback N s e.2) rest := rfl
      by_cases hj : s.j + 1 = N
      · have h2 : N ≤ (makeRequestCallback N s e.2).j := by
          show N ≤ s.j + 1
          omega
        rw [hstep, runFanFrom_calls_of_ge N rest _ h2]
        have hif : N ≤ s.j + (rest.length + 1) := by omega
        simp [makeRequestCallback, hj, hif]
      · have h2 : (makeRequestCallback N s e.2).j < N := by
          show s.j + 1 < N
          omega
        rw [hstep, ih _ h2]
        have hcalls : (makeRequestCallback N s e.2).calls = s.calls := by
          simp [makeRequestCallback, hj]
        have hjj : (makeRequestCallback N s e.2).j = s.j + 1 := rfl
        rw [hcalls, hjj]
        have harith : s.j + 1 + rest.length = s.j + (e :: rest).length := by
          simp
          omega
        rw [harith]

/-- When the completion handler throws on every argument, a run that reaches
the N-th report ends with exactly that exception: the unguarded call site
passes it through unchanged. -/
theorem runFanExcFrom_error {V E : Type} (N : Nat)
    (handler : List (Nat × V) → Except E Unit) (ex : E)
    (hthrow : ∀ rs, handler rs = Except.error ex) (events : List (Nat × V)) :
    ∀ s : FanState V, s.j < N → s.j + events.length = N →
      runFanExcFrom N handler s events = Except.error ex := by
  induction events with
  | nil =>
      intro s h1 h2
      simp at h2
      exact absurd h2 (by omega)
  | cons e rest ih =>
      intro s h1 h2
      by_cases hj : s.j + 1 = N
      · show (if s.j + 1 = N then _ else _) = Except.error ex
        rw [if_pos hj, hthrow]
      · show (if s.j + 1 = N then _ else _) = Except.error ex
        rw [if_neg hj]
        refine ih _ ?_ ?_
        · show s.j + 1 < N
          simp at h2
          omega
        · show s.j + 1 + rest.length = N
          simp at h2
          omega

/- ## Lemmas about the spec-modelled coordinator -/

/-- Running the coordinator over an appended list processes the first part,
then the second. -/
theorem coordRunFrom_append {E V : Type} (a b : List (Nat × Outcome E V)) :
    ∀ s : Coord E V, coordRunFrom s (a ++ b) = coordRunFrom (coordRunFrom s a) b := by
  induction a with
  | nil => intro s; rfl
  | cons x rest ih => intro s; exact ih (coordReport s x.1 x.2)

/-- Once the handler has fired, every further report is discarded and the
state, in particular the record of handler invocations, never changes again. -/
theorem coordRunFrom_fired {E V : Type} (events : List (Nat × Outcome E V)) :
    ∀ s : Coord E V, s.fired.isEmpty = false → coordRunFrom s events = s := by
  induction events with
  | nil => intro s _; rfl
  | cons e rest ih =>
      intro s h
      have hrep : coordReport s e.1 e.2 = s := by
        unfold coordReport
        rw [h]
        rfl
      have hstep : coordRunFrom s (e :: rest)
          = coordRunFrom (coordReport s e.1 e.2) rest := rfl
      rw [hstep, hrep]
      exact ih s h

/-- Feeding the coordinator only success reports, too few to bring the
completed count up to the dispatched count, leaves the handler unfired,
keeps the dispatched count, adds at most one completed key per report, and
adds no completed key outside the keys of the reports. -/
theorem coordRunFrom_successes {E V : Type} (pre : List (Nat × Outcome E V)) :
    ∀ s : Coord E V,
      (∀ x ∈ pre, (x.2).isSuccess = true) →
      s.fired = [] →
      s.completedKeys.length + pre.length < s.n →
      (coordRunFrom s pre).n = s.n ∧
      (coordRunFrom s pre).fired = [] ∧
      (coordRunFrom s pre).completedKeys.length ≤ s.completedKeys.length + pre.length ∧
      (∀ k, k ∈ (coordRunFrom s pre).completedKeys →
        k ∈ s.completedKeys ∨ k ∈ pre.map Prod.fst) := by
  induction pre with
  | nil =>
      intro s _ hf _
      refine ⟨rfl, hf, ?_, fun k hk => Or.inl hk⟩
      show s.completedKeys.length ≤ s.completedKeys.length + ([] : List (Nat × Outcome E V)).length
      simp
  | cons e rest ih =>
      intro s hpre hf hlen
      have hemp : s.fired.isEmpty = true := by rw [hf]; rfl
      have hstep : coordRunFrom s (e :: rest)
          = coordRunFrom (coordReport s e.1 e.2) rest := rfl
      by_cases hdup : e.1 ∈ s.completedKeys
      · have hrep : coordReport s e.1 e.2 = s := by
          unfold coordReport
          rw [hemp, if_pos hdup]
          simp
        rw [hstep, hrep]
        have hlen2 : s.completedKeys.length + rest.length < s.n := by
          simp at hlen
          omega
        obtain ⟨h1, h2, h3, h4⟩ := ih s (fun x hx => hpre x (List.mem_cons_of_mem e hx)) hf hlen2
        refine ⟨h1, h2, by simp; omega, fun k hk => ?_⟩
        rcases h4 k hk with hk1 | hk2
        · exact Or.inl hk1
        · exact Or.inr (by simp; right; simpa using hk2)
      · have hsucc : (e.2).isSuccess = true := hpre e (List.mem_cons_self e rest)
        obtain ⟨v, hv⟩ : ∃ v, e.2 = Outcome.success v := by
          cases he : e.2 with
          | success v => exact ⟨v, rfl⟩
          | failure err => rw [he] at hsucc; simp [Outcome.isSuccess] at hsucc
        have hfire : s.completedKeys.length + 1 ≠ s.n := by
          simp at hlen
          omega
        have hrep : coordReport s e.1 e.2 =
            { n := s.n,
              results := objSet s.results e.1 v,
              completedKeys := s.completedKeys ++ [ e.1 ],
              fired := [] } := by
          unfold coordReport
          rw [hemp, if_neg hdup, hv]
          simp [hfire]
        have hlen2 : (s.completedKeys ++ [ e.1 ]).length + rest.length < s.n := by
          simp at hlen ⊢
          omega
        rw [hstep, hrep]
        obtain ⟨h1, h2, h3, h4⟩ :=
          ih { n := s.n,
               results := objSet s.results e.1 v,
               completedKeys := s.completedKeys ++ [ e.1 ],
               fired := [] }
            (fun x hx => hpre x (List.mem_cons_of_mem e hx)) rfl hlen2
        refine ⟨h1, h2, ?_, fun k hk => ?_⟩
        · simp at h3 ⊢
          omega
        · rcases h4 k hk with hk1 | hk2
          · rcases List.mem_append.mp hk1 with hk3 | hk4
            · exact Or.inl hk3
            · refine Or.inr ?_
              simp at hk4
              simp [hk4]
          · refine Or.inr ?_
            simp
            right
            simpa using hk2

/- ## Claim theorems -/

/-- C1 (amended): for every N greater or equal to one and every interleaving of
the N single completions (any report list of length N), the loop invokes
processResponses exactly once. As stated the claim also covers N = 0, where the
handler never fires; see the counterexample. -/
theorem fanin_fires_exactly_once_of_pos {V : Type} (N : Nat)
    (events : List (Nat × V)) (hN : 1 ≤ N) (hlen : events.length = N) :
    (runFan N events).calls.length = 1 := by
  have h := runFanFrom_calls_length N events
    { j := 0, responses := [], calls := [] } (by show 0 < N; omega)
  have hif : N ≤ events.length := by omega
  simpa [runFan, hif] using h

/-- C1 witness: three tasks completing in the order 3, 1, 2 fire the handler
exactly once. -/
theorem fanin_fires_exactly_once_of_pos_witness :
    (runFan 3 [ ((3 : Nat), (30 : Nat)), (1, 10), (2, 20) ]).calls.length = 1 :=
  fanin_fires_exactly_once_of_pos 3 [ (3, 30), (1, 10), (2, 20) ]
    (by omega) (by decide)

/-- C1 counterexample: with zero dispatched tasks no callback ever runs, so the
guard inside the callbacks is never evaluated and the handler fires zero times,
not exactly once as the claim states. -/
theorem fanin_zero_tasks_handler_silent :
    ¬ (runFan 0 ([] : List (Nat × Nat))).calls.length = 1 := by decide

/-- C2 (amended): every report, including a duplicate report from a task that
already completed, is counted toward the counter j (so a duplicate can fire the
handler before every task has completed), but the handler still fires at most
once, because the guard is an exact equality that j passes exactly once. -/
theorem fanin_at_most_once_despite_duplicates {V : Type} (N : Nat)
    (events : List (Nat × V)) :
    (runFan N events).j = events.length ∧ (runFan N events).calls.length ≤ 1 := by
  constructor
  · have h := runFanFrom_j N events { j := 0, responses := [], calls := [] }
    simpa [runFan] using h
  · by_cases hN : N = 0
    · subst hN
      have h := runFanFrom_calls_of_ge 0 events
        { j := 0, responses := [], calls := [] } (Nat.zero_le _)
      simp [runFan, h]
    · have h := runFanFrom_calls_length N events
        { j := 0, responses := [], calls := [] } (by show 0 < N; omega)
      simp only [runFan] at h ⊢
      rw [h]
      split <;> simp
  
/-- C2 counterexample: two dispatched tasks; task 1 reports twice and task 2
never reports. The duplicate report is counted (j ends at 2, not at the 1 the
claim demands), which fires the handler even though task 2 never completed. -/
theorem fanin_duplicate_report_counted :
    (runFan 2 [ ((1 : Nat), (10 : Nat)), (1, 11) ]).j = 2 ∧
    (runFan 2 [ ((1 : Nat), (10 : Nat)), (1, 11) ]).calls.length = 1 ∧
    ¬ (runFan 2 [ ((1 : Nat), (10 : Nat)), (1, 11) ]).j = 1 := by decide

/-- C3: evaluating the loop at the scenario of the claim (three tasks with
values 10, 20, 30 for keys 1, 2, 3, completing in the order 3, 1, 2): because
every callback writes through the shared loop variable, which holds 4 after the
loop, the handler receives a single-entry object holding only the response of
the last completion under key 4, not one entry per task key. -/
theorem fanin_single_slot_resultset :
    (runFan 3 [ ((3 : Nat), (30 : Nat)), (1, 10), (2, 20) ]).calls
      = [ [ (4, 20) ] ] := by decide

/-- C4 (amended): with zero dispatched tasks the handler never fires at all,
for any list of reports, because the guard only exists inside task callbacks. -/
theorem fanin_zero_tasks_never_fires {V : Type} (events : List (Nat × V)) :
    (runFan 0 events).calls = [] := by
  have h := runFanFrom_calls_of_ge 0 events
    { j := 0, responses := [], calls := [] } (Nat.zero_le _)
  simpa [runFan] using h

/-- C4 counterexample: with zero tasks the claim demands an immediate handler
invocation with an empty ResultSet, but the loop produces no invocation. -/
theorem fanin_zero_tasks_not_immediate :
    ¬ (runFan 0 ([] : List (Nat × Nat))).calls = [ [] ] := by decide

/-- C7: the completion of one task does not leave the recorded results of the
other tasks unchanged. With two tasks, after task 1 completes with 10 the
responses object is a single slot under key 3 holding 10; when task 2 then
completes with 20 it overwrites that same slot, erasing the recorded response
of task 1. -/
theorem fanin_completion_overwrites_previous_result :
    (runFan 2 [ ((1 : Nat), (10 : Nat)) ]).responses = [ (3, 10) ] ∧
    (runFan 2 [ ((1 : Nat), (10 : Nat)), (2, 20) ]).responses = [ (3, 20) ] := by
  decide

/-- C8: the loop invokes the caller-supplied completion handler without any
try/catch, so when the handler throws on the completing report, the run ends
with exactly that exception, propagated unchanged. -/
theorem fanin_handler_exception_propagates {V E : Type} (N : Nat)
    (events : List (Nat × V)) (handler : List (Nat × V) → Except E Unit)
    (ex : E) (hN : 1 ≤ N) (hlen : events.length = N)
    (hthrow : ∀ rs, handler rs = Except.error ex) :
    runFanExc N handler events = Except.error ex := by
  have h := runFanExcFrom_error N handler ex hthrow events
    { j := 0, responses := [], calls := [] }
    (by show 0 < N; omega) (by show 0 + events.length = N; omega)
  simpa [runFanExc] using h

/-- C8 witness: one task, a handler that always throws the string boom; the run
ends with exactly that exception. -/
theorem fanin_handler_exception_propagates_witness :
    runFanExc 1 (fun _ => (Except.error "boom" : Except String Unit))
      [ ((1 : Nat), (5 : Nat)) ] = Except.error "boom" :=
  fanin_handler_exception_propagates 1 [ (1, 5) ]
    (fun _ => Except.error "boom") "boom" (by omega) (by decide) (fun _ => rfl)

/-- C5: in the spec-modelled fail-fast coordinator, when the first failure in
the report sequence is that of task K (every earlier report a success of some
other task, too few to complete the whole set), the handler is invoked exactly
once, with the key and reason of that failure and no ResultSet, and no later
report of any kind changes the outcome or invokes the handler again. -/
theorem coordinator_fail_fast_first_failure {E V : Type} (n : Nat)
    (pre post : List (Nat × Outcome E V)) (K : Nat) (e : E)
    (hpre : ∀ x ∈ pre, (x.2).isSuccess = true)
    (hfresh : K ∉ pre.map Prod.fst)
    (hlen : pre.length < n) :
    (coordRun n (pre ++ (K, Outcome.failure e) :: post)).fired
      = [ CoordCall.onFailure K e ] := by
  have hn : n ≠ 0 := by omega
  have hinitf : (coordInit n : Coord E V).fired = [] := by
    simp [coordInit, hn]
  have hinitlen : (coordInit n : Coord E V).completedKeys.length + pre.length
      < (coordInit n : Coord E V).n := by
    show 0 + pre.length < n
    omega
  obtain ⟨h1, h2, _, h4⟩ := coordRunFrom_successes pre (coordInit n) hpre hinitf hinitlen
  have hKnot : K ∉ (coordRunFrom (coordInit n) pre).completedKeys := by
    intro hk
    rcases h4 K hk with hk1 | hk2
    · simp [coordInit] at hk1
    · exact hfresh hk2
  have hemp : (coordRunFrom (coordInit n) pre).fired.isEmpty = true := by
    rw [h2]; rfl
  have hrep : coordReport (coordRunFrom (coordInit n) pre) K (Outcome.failure e)
      = { n := (coordRunFrom (coordInit n) pre).n,
          results := (coordRunFrom (coordInit n) pre).results,
          completedKeys := (coordRunFrom (coordInit n) pre).completedKeys ++ [ K ],
          fired := [ CoordCall.onFailure K e ] } := by
    unfold coordReport
    rw [hemp, if_neg hKnot]
    rfl
  have hsplit : coordRun n (pre ++ (K, Outcome.failure e) :: post)
      = coordRunFrom
          (coordReport (coordRunFrom (coordInit n) pre) K (Outcome.failure e))
          post := by
    show coordRunFrom (coordInit n) (pre ++ (K, Outcome.failure e) :: post) = _
    rw [coordRunFrom_append]
    rfl
  rw [hsplit, hrep, coordRunFrom_fired]
  rfl

/-- C5 witness: three tasks; task 1 succeeds, then task 2 fails with timeout,
then task 3 succeeds and task 2 reports a second failure; the handler receives
exactly the first failure of task 2. -/
theorem coordinator_fail_fast_first_failure_witness :
    (coordRun 3 [ ((1 : Nat), Outcome.success (10 : Nat)),
                  (2, Outcome.failure "timeout"),
                  (3, Outcome.success 30),
                  (2, Outcome.failure "again") ]).fired
      = [ CoordCall.onFailure 2 "timeout" ] :=
  coordinator_fail_fast_first_failure 3
    [ (1, Outcome.success 10) ]
    [ (3, Outcome.success 30), (2, Outcome.failure "again") ]
    2 "timeout" (by decide) (by decide) (by decide)

/-- C6: when fs.stat succeeds but reports that the input path is not a regular
file, getCustomers logs to console.error and returns without ever invoking the
supplied callback: the failure is swallowed instead of being surfaced. -/
theorem getCustomers_not_file_swallows_failure :
    getCustomers (StatOutcome.statOk false) (ReadOutcome.readOk "a,b") WriteOutcome.writeOk
      = { thrown := none,
          callbackCalls := [],
          consoleErrors := [ "The input CSV file is not found" ] } := rfl

/-- C9: whenever the input file exists and is a regular file and both the read
(yielding customersCSV) and the write succeed, the callback is invoked exactly
once, with null as its first argument and, as its second, the 4-space-indented
JSON serialization of the array obtained by splitting customersCSV on newlines
and mapping each line to an object with the first comma-separated field as id
and the second as first_name. -/
theorem getCustomers_success_calls_once (customersCSV : String) :
    getCustomers (StatOutcome.statOk true) (ReadOutcome.readOk customersCSV)
        WriteOutcome.writeOk
      = { thrown := none,
          callbackCalls :=
            [ (none, some (stringifyCustomers (parseCustomers customersCSV))) ],
          consoleErrors := [] } := rfl

/-- C10: when fs.stat reports an error its stats argument is undefined, so the
stat callback throws a TypeError at stats.isFile() and the supplied callback is
never invoked, whatever the other filesystem operations would have reported. -/
theorem getCustomers_stat_error_throws (message : String)
    (read : ReadOutcome) (write : WriteOutcome) :
    (getCustomers (StatOutcome.statError message) read write).thrown.isSome = true ∧
    (getCustomers (StatOutcome.statError message) read write).callbackCalls = [] := by
  cases read <;> cases write <;> exact ⟨rfl, rfl⟩
